import Mathlib

/-!
Shallow embedding of the authentication/authorization pipeline of the
LearnHub backend (`app/auth.py`, `app/dependencies.py`).

Python dictionaries of JWT claims are modelled as association lists from
string keys to string values; the jose library's decode primitives are
modelled as oracle fields of a `TokenBehavior` structure describing, for a
fixed token and process configuration, the outcome of each decode call the
code can make; the JWKS cache (`_jwks_cache`) is explicit state threaded
through the functions, together with a boolean that records whether the
call performed a network fetch.
-/

set_option maxHeartbeats 1000000

/-- A claims set: a JWT payload dictionary (string keys to string values). -/
abbrev Claims := List (String × String)

/-- Python `payload.get(k)`: first binding of key `k`, if any. -/
def getClaim (c : Claims) (k : String) : Option String :=
  (c.find? (fun p => p.1 == k)).map (fun p => p.2)

/-- Python `k in payload`. -/
def hasClaim (c : Claims) (k : String) : Bool :=
  (getClaim c k).isSome

/-- Python `payload[k] = v`: replace the value bound to `k` in place,
appending a fresh binding when the key is absent (dict update semantics). -/
def setClaim (c : Claims) (k v : String) : Claims :=
  if c.any (fun p => p.1 == k) then
    c.map (fun p => if p.1 == k then (p.1, v) else p)
  else
    c ++ [(k, v)]

/-- One entry of the JWKS `keys` array: its `kid` plus abstract key
material (distinguishing otherwise-equal keys). -/
structure JwksKey where
  kid : String
  material : Nat
deriving DecidableEq

/-- The module-level `_jwks_cache` variable: `none` is Python `None`. -/
abbrev JwksCache := Option (List JwksKey)

/-- Python truthiness of `_jwks_cache` in `if _jwks_cache:`:
`None` and the empty list are both falsy. -/
def cacheTruthy : JwksCache → Bool
  | none => false
  | some l => !l.isEmpty

/-- Model of `_get_jwks`: return the cached key list when the cache is truthy,
otherwise perform the network fetch (whose outcome is the `fetch`
parameter), store a successful result in the cache, and propagate a fetch
failure unchanged (the cache is not written on failure).  The returned
boolean records whether a fetch was performed. -/
def getJwks (cache : JwksCache) (fetch : Except String (List JwksKey)) :
    Except String (List JwksKey) × JwksCache × Bool :=
  match cache with
  | some l =>
    if l.isEmpty then
      match fetch with
      | .ok ks => (.ok ks, some ks, true)
      | .error e => (.error e, some l, true)
    else
      (.ok l, some l, false)
  | none =>
    match fetch with
    | .ok ks => (.ok ks, some ks, true)
    | .error e => (.error e, none, true)

/-- The `HTTPAuthorizationCredentials` object produced by `HTTPBearer`. -/
structure Cred where
  credentials : String
deriving DecidableEq

/-- Decode oracle for one fixed token under the process configuration:
`hs` is the outcome of `jwt.decode(token, jwt_secret, HS256, audience)`,
`header` the outcome of `jwt.get_unverified_header(token)` (on success,
the optional `kid` entry of the header), and `rs` the outcome of
`jwt.decode(token, key, RS256, audience)` for a given JWKS key.  Errors
carry the stringified `JWTError`. -/
structure TokenBehavior where
  hs : Except String Claims
  header : Except String (Option String)
  rs : JwksKey → Except String Claims

/-- Result of `get_current_user`: a verified payload, an `AuthError`
(HTTP 401 with a detail string), or an uncaught raw exception escaping the
function (not an HTTPException). -/
inductive AuthOutcome where
  | ok (claims : Claims)
  | authError (detail : String)
  | rawError (exc : String)
deriving DecidableEq

/-- Python truthiness of `jwt_secret = os.getenv(...)` in
`if jwt_secret:`: unset (`None`) and the empty string are falsy. -/
def secretTruthy : Option String → Bool
  | none => false
  | some s => !(s == "")

/-- Python `str(e)` for an `AuthError` (Starlette `HTTPException.__str__`
is `"{status_code}: {detail}"`, and `AuthError` always has status 401). -/
def authErrStr (detail : String) : String :=
  "401: " ++ detail

/-- Python `str(e)` for `KeyError(k)`: the key in single quotes. -/
def pyKeyErrorStr (k : String) : String :=
  String.mk (Char.ofNat 39 :: k.data ++ [Char.ofNat 39])

/-- Strategy 2 of `get_current_user` (lines 73-110 of `app/auth.py`):
read the unverified header, obtain the JWKS (possibly fetching), select
the first key with matching `kid`, decode with RS256, and finally require
a `sub` claim.  `secretConfigured` is the truthiness of `jwt_secret`,
which selects the detail message when no key matches.  Exceptions map as
in the source: a `JWTError` from header reading or RS256 decode is caught
by the `(JWTError, StopIteration)` handler; a fetch failure, the
`KeyError` raised by `unverified_header["kid"]` when the header lacks a
`kid` (only reached when the key list is nonempty, since the generator
predicate is never evaluated on an empty list), and the `AuthError`
raised inside the `try` when no key matches are all caught by the generic
`except Exception` handler and re-wrapped. -/
def strategy2 (secretConfigured : Bool) (tb : TokenBehavior)
    (cache : JwksCache) (fetch : Except String (List JwksKey)) :
    AuthOutcome × JwksCache × Bool :=
  match tb.header with
  | .error e => (.authError ("Invalid or expired authentication token: " ++ e), cache, false)
  | .ok hdrKid =>
    match getJwks cache fetch with
    | (.error e, cache2, fl) =>
      (.authError ("Authentication failed: " ++ e), cache2, fl)
    | (.ok jwks, cache2, fl) =>
      match hdrKid, jwks with
      | _, [] =>
        if secretConfigured then
          (.authError ("Authentication failed: " ++
            authErrStr "Authentication failed: No valid verification method found"), cache2, fl)
        else
          (.authError ("Authentication failed: " ++
            authErrStr "Public key not found and no symmetric secret configured"), cache2, fl)
      | none, _ :: _ =>
        (.authError ("Authentication failed: " ++ pyKeyErrorStr "kid"), cache2, fl)
      | some kid, k0 :: rest =>
        match (k0 :: rest).find? (fun k => k.kid == kid) with
        | none =>
          if secretConfigured then
            (.authError ("Authentication failed: " ++
              authErrStr "Authentication failed: No valid verification method found"), cache2, fl)
          else
            (.authError ("Authentication failed: " ++
              authErrStr "Public key not found and no symmetric secret configured"), cache2, fl)
        | some key =>
          match tb.rs key with
          | .error e =>
            (.authError ("Invalid or expired authentication token: " ++ e), cache2, fl)
          | .ok payload =>
            if hasClaim payload "sub" then
              (.ok payload, cache2, fl)
            else
              (.authError "Invalid token payload", cache2, fl)

/-- Model of `get_current_user` (`app/auth.py` lines 39-110).  With no credentials
(`HTTPBearer(auto_error=False)` yields `None`), the very first statement
`token = credentials.credentials` raises `AttributeError` outside the
`try` block, so a raw exception escapes.  Otherwise: when the secret is
truthy, strategy 1 decodes with HS256 and returns immediately on success
with a `sub` claim, falling through to strategy 2 on a `JWTError` or a
missing `sub`; when the secret is falsy, strategy 2 runs directly. -/
def getCurrentUser (cred : Option Cred) (jwtSecret : Option String)
    (tb : TokenBehavior) (cache : JwksCache)
    (fetch : Except String (List JwksKey)) :
    AuthOutcome × JwksCache × Bool :=
  match cred with
  | none => (.rawError "AttributeError", cache, false)
  | some _ =>
    if secretTruthy jwtSecret then
      match tb.hs with
      | .ok payload =>
        if hasClaim payload "sub" then
          (.ok payload, cache, false)
        else
          strategy2 true tb cache fetch
      | .error _ => strategy2 true tb cache fetch
    else
      strategy2 false tb cache fetch

/-- Model of `get_current_user_optional` (`app/auth.py` lines 165-173): absent or
empty credentials yield `none` immediately; otherwise delegate to
`get_current_user` and map any failure (`AuthError` or raw exception,
both caught by `except Exception`) to `none`. -/
def getCurrentUserOptional (cred : Option Cred) (jwtSecret : Option String)
    (tb : TokenBehavior) (cache : JwksCache)
    (fetch : Except String (List JwksKey)) :
    Option Claims × JwksCache × Bool :=
  match cred with
  | none => (none, cache, false)
  | some c =>
    if c.credentials == "" then
      (none, cache, false)
    else
      match getCurrentUser (some c) jwtSecret tb cache fetch with
      | (.ok p, cache2, fl) => (some p, cache2, fl)
      | (.authError _, cache2, fl) => (none, cache2, fl)
      | (.rawError _, cache2, fl) => (none, cache2, fl)

/-- One row of the `users` table as returned by
`select("role").eq("id", user_id)`: the `role` column may be null. -/
structure UserRow where
  role : Option String
deriving DecidableEq

/-- The database environment of `require_role`: whether the admin client
initialised (`supabase_admin` is not `None`), and the outcome of the
`users` query for a given id (`error` carries the exception's type name
and message for the generic handler's detail string). -/
structure DbState where
  adminAvailable : Bool
  query : Option String → Except (String × String) (List UserRow)

/-- Result of the guard produced by `require_role`: augmented claims, or
an `HTTPException` with a status code and detail string. -/
inductive RoleOutcome where
  | ok (claims : Claims)
  | httpError (statusCode : Nat) (detail : String)
deriving DecidableEq

/-- Python `f"{x}"` for an optional string: `None` prints as "None". -/
def pyStr : Option String → String
  | none => "None"
  | some s => s

/-- Python `user_role != role` negated, with `user_role` possibly `None`:
`None` never equals a string, strings compare exactly (case-sensitive). -/
def pyRoleEq : Option String → String → Bool
  | none, _ => false
  | some r, req => r == req

/-- The role-mismatch detail string of `require_role`. -/
def accessDeniedDetail (required : String) (actual : Option String) : String :=
  "Access denied. Required role: " ++ required ++ ", your role: " ++ pyStr actual

/-- The profile-missing detail string of `require_role`. -/
def profileNotFoundDetail : String :=
  "User profile not found in database. Please complete your profile setup first."

/-- The detail string of `get_supabase_admin`'s HTTPException
(`app/dependencies.py` lines 27-33), raised with status 500. -/
def serviceRoleMissingDetail : String :=
  "Server configuration error: Service role key missing"

/-- The generic lookup-failure detail of `require_role`. -/
def roleLookupErrorDetail (tyName msg : String) : String :=
  "Could not verify user role. Error: " ++ tyName ++ ": " ++ msg

/-- The guard produced by `require_role(role)` (`app/auth.py` lines
112-163), applied to already-verified claims `user` against database
state `db`.  `get_supabase_admin` raising (admin client missing) is
re-raised unchanged as HTTP 500; a query exception becomes a 403 with the
exception's type and message; an empty result list is a 403
profile-not-found; a role mismatch (including a null role) is a 403
naming both roles; on match the confirmed role is written onto the
claims, which are returned. -/
def requireRole (role : String) (db : DbState) (user : Claims) : RoleOutcome :=
  if db.adminAvailable then
    match db.query (getClaim user "sub") with
    | .error (tyName, msg) => .httpError 403 (roleLookupErrorDetail tyName msg)
    | .ok [] => .httpError 403 profileNotFoundDetail
    | .ok (row :: _) =>
      if pyRoleEq row.role role then
        .ok (setClaim user "role" (pyStr row.role))
      else
        .httpError 403 (accessDeniedDetail role row.role)
  else
    .httpError 500 serviceRoleMissingDetail

/-- The observable accept/reject outcome of a guard: `none` on acceptance,
the status code and detail on rejection. -/
def roleOutcomeStatus : RoleOutcome → Option (Nat × String)
  | .ok _ => none
  | .httpError s d => some (s, d)

/-- The status code alone of a guard outcome. -/
def roleStatusCode : RoleOutcome → Option Nat
  | .ok _ => none
  | .httpError s _ => some s

/-- Predicate: `hay` contains `needle` as a contiguous substring. -/
def strContains (hay needle : String) : Prop :=
  ∃ p s, hay = p ++ needle ++ s

/-! Concrete fixtures used by witnesses and counterexamples. -/

/-- Verified claims of a token that also carries a (stale) role claim. -/
def userStudentToken : Claims :=
  [("sub", "u1"), ("email", "a@b.c"), ("role", "student")]

/-- Database whose `users` row for any id has role "teacher". -/
def dbTeacher : DbState :=
  { adminAvailable := true, query := fun _ => .ok [{ role := some "teacher" }] }

/-- Database whose `users` row for any id has role "student". -/
def dbStudent : DbState :=
  { adminAvailable := true, query := fun _ => .ok [{ role := some "student" }] }

/-- Database with no `users` row for any id. -/
def dbEmpty : DbState :=
  { adminAvailable := true, query := fun _ => .ok [] }

/-- Database environment where the admin client failed to initialise. -/
def dbNoAdmin : DbState :=
  { adminAvailable := false, query := fun _ => .ok [] }

/-- A token that HS256-decodes to a payload lacking `sub`, whose header
carries kid "kid1", and which no key RS256-verifies. -/
def tbNoSub : TokenBehavior :=
  { hs := .ok [("aud", "authenticated")]
    header := .ok (some "kid1")
    rs := fun _ => .error "Signature verification failed." }

/-- A token that HS256-decodes to a payload with `sub`. -/
def tbGood : TokenBehavior :=
  { hs := .ok [("sub", "u1"), ("email", "a@b.c")]
    header := .ok (some "kid1")
    rs := fun _ => .error "Signature verification failed." }

/-!
Helper lemmas about the claims-dictionary operations and strings.
-/

theorem find?_set_self (k v : String) :
    ∀ c : Claims, c.any (fun p => p.1 == k) = true →
      (c.map (fun p => if p.1 == k then (p.1, v) else p)).find? (fun p => p.1 == k) =
        some (k, v) := by
  intro c h
  induction c with
  | nil => simp at h
  | cons p t ih =>
    by_cases hp : (p.1 == k) = true
    · have hk : p.1 = k := eq_of_beq hp
      simp [List.find?_cons_of_pos, hp, hk]
    · have hp2 : (p.1 == k) = false := by simp_all
      have ht : t.any (fun p => p.1 == k) = true := by
        simp [List.any_cons, hp2] at h
        simpa using h
      simp only [List.map_cons, if_neg hp]
      rw [List.find?_cons_of_neg _ (by simpa using hp2)]
      exact ih ht

theorem getClaim_setClaim_self (c : Claims) (k v : String) :
    getClaim (setClaim c k v) k = some v := by
  unfold setClaim
  by_cases h : c.any (fun p => p.1 == k) = true
  · rw [if_pos h, getClaim, find?_set_self k v c h]
    rfl
  · rw [if_neg h]
    have hnone : c.find? (fun p => p.1 == k) = none := by
      rw [List.find?_eq_none]
      intro x hx
      by_contra hb
      exact h (List.any_of_mem hx (by simpa using hb))
    rw [getClaim, List.find?_append, hnone]
    simp [List.find?]

theorem find?_set_other (k v k2 : String) (h : k2 ≠ k) :
    ∀ c : Claims, (c.map (fun p => if p.1 == k then (p.1, v) else p)).find? (fun p => p.1 == k2) =
      c.find? (fun p => p.1 == k2) := by
  intro c
  induction c with
  | nil => rfl
  | cons p t ih =>
    by_cases hp : (p.1 == k) = true
    · have hk : p.1 = k := eq_of_beq hp
      have h2 : (p.1 == k2) = false := by
        simp [hk]
        exact fun e => h e.symm
      simp only [List.map_cons, if_pos hp]
      rw [List.find?_cons_of_neg _ (by simpa [hk] using h2),
        List.find?_cons_of_neg _ (by simpa using h2)]
      exact ih
    · simp only [List.map_cons, if_neg hp]
      by_cases h2 : (p.1 == k2) = true
      · rw [List.find?_cons_of_pos _ (by simpa using h2),
          List.find?_cons_of_pos _ (by simpa using h2)]
      · rw [List.find?_cons_of_neg _ (by simpa using h2),
          List.find?_cons_of_neg _ (by simpa using h2)]
        exact ih

theorem getClaim_setClaim_other (c : Claims) (k v k2 : String) (h : k2 ≠ k) :
    getClaim (setClaim c k v) k2 = getClaim c k2 := by
  unfold setClaim
  by_cases ha : c.any (fun p => p.1 == k) = true
  · rw [if_pos ha]
    unfold getClaim
    rw [find?_set_other k v k2 h c]
  · rw [if_neg ha]
    unfold getClaim
    rw [List.find?_append]
    have h2 : ((k, v).1 == k2) = false := by
      simp
      exact fun e => h e.symm
    cases hf : c.find? (fun p => p.1 == k2) with
    | some w => simp
    | none => simp [List.find?, h2]

/-!
Claim theorems.
-/

/-- Claim C1: the accept/reject outcome of the guard produced by
`require_role` (and, on rejection, its status code and detail) depends
only on the `sub` entry of the presented claims and on the database
state; in particular two claims sets that agree on `sub` but differ in
their `role` entry produce the same authorization outcome against the
same database state. -/
theorem requireRole_outcome_depends_only_on_sub (role : String) (db : DbState)
    (u1 u2 : Claims) (h : getClaim u1 "sub" = getClaim u2 "sub") :
    roleOutcomeStatus (requireRole role db u1) =
      roleOutcomeStatus (requireRole role db u2) := by
  unfold requireRole
  rw [h]
  by_cases hA : db.adminAvailable = true
  · rw [if_pos hA, if_pos hA]
    cases hq : db.query (getClaim u2 "sub") with
    | error e =>
      cases e
      rfl
    | ok rows =>
      cases rows with
      | nil => rfl
      | cons row rest =>
        by_cases hr : pyRoleEq row.role role = true
        · simp [hr, roleOutcomeStatus]
        · simp [hr, roleOutcomeStatus]
  · rw [if_neg hA, if_neg hA]

theorem requireRole_outcome_depends_only_on_sub_witness :
    roleOutcomeStatus (requireRole "teacher" dbTeacher userStudentToken) =
      roleOutcomeStatus (requireRole "teacher" dbTeacher
        [("sub", "u1"), ("role", "teacher")]) :=
  requireRole_outcome_depends_only_on_sub "teacher" dbTeacher userStudentToken
    [("sub", "u1"), ("role", "teacher")] rfl

/-- Claim C2 (refuted, code bug): when no Authorization header is
presented, `HTTPBearer(auto_error=False)` hands `None` to
`get_current_user`, whose first statement `credentials.credentials`
raises a raw `AttributeError` outside its `try` block, so the caller
sees an uncaught exception (HTTP 500) rather than the typed
`AuthError`/401 that the spec and the repository's own test
(`test_me_unauthenticated`, asserting 401) require. -/
theorem getCurrentUser_no_credentials_raw_exception (jwtSecret : Option String)
    (tb : TokenBehavior) (cache : JwksCache) (fetch : Except String (List JwksKey)) :
    getCurrentUser none jwtSecret tb cache fetch =
      (.rawError "AttributeError", cache, false) := rfl

/-- Counterexample to claim C3 as stated: when the admin client is
unavailable the guard fails with status 500, not 403. -/
theorem requireRole_no_admin_counterexample :
    roleStatusCode (requireRole "teacher" dbNoAdmin userStudentToken) = some 500 ∧
      roleStatusCode (requireRole "teacher" dbNoAdmin userStudentToken) ≠ some 403 := by
  constructor
  · rfl
  · decide

/-- Claim C3 (amended): when the privileged database handle cannot be
obtained, the guard produced by `require_role` re-raises
`get_supabase_admin`'s HTTPException unchanged — an HTTP 500
"Server configuration error" — a configuration failure distinct from the
403 authorization failures. -/
theorem requireRole_no_admin_500 (role : String) (db : DbState) (user : Claims)
    (h : db.adminAvailable = false) :
    requireRole role db user = .httpError 500 serviceRoleMissingDetail := by
  unfold requireRole
  simp [h]

theorem requireRole_no_admin_500_witness :
    requireRole "teacher" dbNoAdmin userStudentToken =
      .httpError 500 serviceRoleMissingDetail :=
  requireRole_no_admin_500 "teacher" dbNoAdmin userStudentToken rfl

/-- Claim C6: when the persisted row's role equals the required role
(exact, case-sensitive string comparison), the guard returns the claims
with `role` bound to the persisted role, overwriting any differing role
claim the token carried. -/
theorem requireRole_match_augments (role : String) (db : DbState) (user : Claims)
    (rest : List UserRow) (hA : db.adminAvailable = true)
    (hq : db.query (getClaim user "sub") = .ok ({ role := some role } :: rest)) :
    requireRole role db user = .ok (setClaim user "role" role) ∧
      getClaim (setClaim user "role" role) "role" = some role := by
  constructor
  · unfold requireRole
    rw [if_pos hA, hq]
    simp [pyRoleEq, pyStr]
  · exact getClaim_setClaim_self user "role" role

theorem requireRole_match_augments_witness :
    requireRole "teacher" dbTeacher userStudentToken =
      .ok (setClaim userStudentToken "role" "teacher") ∧
      getClaim (setClaim userStudentToken "role" "teacher") "role" = some "teacher" :=
  requireRole_match_augments "teacher" dbTeacher userStudentToken [] rfl rfl

/-- Claim C7: with no persisted row the guard fails 403 with a detail
mentioning profile setup; with a persisted role differing from the
required one it fails 403 with a detail containing both the required and
the actual role. -/
theorem requireRole_forbidden_details (role : String) (db : DbState) (user : Claims)
    (row : UserRow) (rest : List UserRow) :
    (db.adminAvailable = true → db.query (getClaim user "sub") = .ok [] →
      requireRole role db user = .httpError 403 profileNotFoundDetail ∧
        strContains profileNotFoundDetail "profile setup") ∧
    (db.adminAvailable = true → db.query (getClaim user "sub") = .ok (row :: rest) →
      pyRoleEq row.role role = false →
      requireRole role db user = .httpError 403 (accessDeniedDetail role row.role) ∧
        strContains (accessDeniedDetail role row.role) role ∧
        strContains (accessDeniedDetail role row.role) (pyStr row.role)) := by
  constructor
  · intro hA hq
    refine ⟨?_, ?_⟩
    · unfold requireRole
      rw [if_pos hA, hq]
    · exact ⟨"User profile not found in database. Please complete your ", " first.",
        by decide⟩
  · intro hA hq hr
    refine ⟨?_, ?_, ?_⟩
    · unfold requireRole
      rw [if_pos hA, hq]
      simp [hr]
    · exact ⟨"Access denied. Required role: ", ", your role: " ++ pyStr row.role,
        String.append_assoc _ _ _⟩
    · refine ⟨"Access denied. Required role: " ++ role ++ ", your role: ", "", ?_⟩
      rw [String.append_empty]
      rfl

theorem requireRole_forbidden_details_witness :
    requireRole "teacher" dbEmpty userStudentToken =
      .httpError 403 profileNotFoundDetail ∧
    requireRole "teacher" dbStudent userStudentToken =
      .httpError 403 (accessDeniedDetail "teacher" (some "student")) :=
  ⟨((requireRole_forbidden_details "teacher" dbEmpty userStudentToken
      ⟨some "student"⟩ []).1 rfl rfl).1,
   ((requireRole_forbidden_details "teacher" dbStudent userStudentToken
      ⟨some "student"⟩ []).2 rfl rfl rfl).1⟩

/-- Claim C4: whenever `get_current_user` succeeds, the returned claims
contain a `sub` field, on both the symmetric and the asymmetric path:
strategy 1 only returns early when `sub` is present, and strategy 2's
payload is re-checked for `sub` before being returned. -/
theorem getCurrentUser_ok_has_sub (cred : Option Cred) (jwtSecret : Option String)
    (tb : TokenBehavior) (cache : JwksCache) (fetch : Except String (List JwksKey))
    (p : Claims) (cache2 : JwksCache) (fl : Bool)
    (h : getCurrentUser cred jwtSecret tb cache fetch = (.ok p, cache2, fl)) :
    hasClaim p "sub" = true := by
  unfold getCurrentUser strategy2 at h
  repeat' split at h
  all_goals simp_all

theorem getCurrentUser_ok_has_sub_witness :
    hasClaim [("sub", "u1"), ("email", "a@b.c")] "sub" = true :=
  getCurrentUser_ok_has_sub (some ⟨"tok"⟩) (some "secret") tbGood none (Except.ok [])
    [("sub", "u1"), ("email", "a@b.c")] none false rfl

/-- Claim C5: with a truthy symmetric secret, when strategy 1 fails or
succeeds with claims lacking `sub`, `get_current_user` proceeds to
strategy 2 and its result is exactly the asymmetric path's result; in
particular when the header names a key id that no fetched key matches,
the verifier fails with an `AuthError` (401) only then, via the
no-valid-verification-method branch. -/
theorem getCurrentUser_hs_fallback (c : Cred) (sec : Option String)
    (tb : TokenBehavior) (cache : JwksCache) (fetch : Except String (List JwksKey))
    (kid : String) (ks : List JwksKey) (cache2 : JwksCache) (fl : Bool)
    (hsec : secretTruthy sec = true)
    (hfall : (∃ e, tb.hs = .error e) ∨ ∃ p, tb.hs = .ok p ∧ hasClaim p "sub" = false) :
    getCurrentUser (some c) sec tb cache fetch = strategy2 true tb cache fetch ∧
      (tb.header = .ok (some kid) →
        getJwks cache fetch = (.ok ks, cache2, fl) →
        ks.find? (fun k => k.kid == kid) = none →
        getCurrentUser (some c) sec tb cache fetch =
          (.authError ("Authentication failed: " ++
            authErrStr "Authentication failed: No valid verification method found"),
            cache2, fl)) := by
  have hmain : getCurrentUser (some c) sec tb cache fetch =
      strategy2 true tb cache fetch := by
    unfold getCurrentUser
    rw [if_pos hsec]
    rcases hfall with ⟨e, he⟩ | ⟨p, hp, hnosub⟩
    · rw [he]
    · rw [hp]
      simp [hnosub]
  refine ⟨hmain, fun hhdr hj hfind => ?_⟩
  rw [hmain]
  unfold strategy2
  rw [hhdr, hj]
  cases ks with
  | nil => rfl
  | cons k0 rest =>
    simp only [hfind]
    rfl

theorem getCurrentUser_hs_fallback_witness :
    getCurrentUser (some ⟨"tok"⟩) (some "secret") tbNoSub none (Except.ok []) =
      (.authError ("Authentication failed: " ++
        authErrStr "Authentication failed: No valid verification method found"),
        some [], true) :=
  (getCurrentUser_hs_fallback ⟨"tok"⟩ (some "secret") tbNoSub none (Except.ok [])
    "kid1" [] (some []) true rfl
    (Or.inr ⟨[("aud", "authenticated")], rfl, rfl⟩)).2 rfl rfl rfl

/-- Counterexample to claim C8 as stated: when the first fetch returns
the empty key list, the cache (`some []`) is falsy under `if _jwks_cache:`
and the second call performs another network fetch (final `true`). -/
theorem getJwks_empty_refetch_counterexample :
    getJwks ((getJwks none (Except.ok ([] : List JwksKey))).2.1)
        (Except.ok ([] : List JwksKey)) =
      (Except.ok ([] : List JwksKey), some [], true) := rfl

/-- Claim C8 (amended): after a first call to `_get_jwks` completes
successfully with a NONEMPTY key list, every subsequent call returns the
cached list without performing a network fetch; an empty fetched list is
never treated as populating the cache (Python truthiness of the list), so
it is fetched again on every call. -/
theorem getJwks_cached_after_nonempty (st : JwksCache)
    (f1 f2 : Except String (List JwksKey)) (ks : List JwksKey)
    (st2 : JwksCache) (b : Bool)
    (h : getJwks st f1 = (.ok ks, st2, b)) (hne : ks ≠ []) :
    getJwks st2 f2 = (.ok ks, st2, false) := by
  have hemp : ks.isEmpty = false := by
    cases ks with
    | nil => exact absurd rfl hne
    | cons a t => rfl
  have hst : st2 = some ks := by
    cases st with
    | none =>
      cases f1 with
      | error e => exact absurd h (by simp [getJwks])
      | ok ks0 =>
        rw [show getJwks none (Except.ok ks0) =
          (Except.ok ks0, some ks0, true) from rfl] at h
        injection h with h1 h2
        injection h1 with h3
        injection h2 with h4 h5
        rw [← h4, h3]
    | some l =>
      by_cases hl : l.isEmpty = true
      · cases f1 with
        | error e =>
          rw [show getJwks (some l) (Except.error e) =
            (Except.error e, some l, true) from by simp [getJwks, hl]] at h
          exact absurd h (by simp)
        | ok ks0 =>
          rw [show getJwks (some l) (Except.ok ks0) =
            (Except.ok ks0, some ks0, true) from by simp [getJwks, hl]] at h
          injection h with h1 h2
          injection h1 with h3
          injection h2 with h4 h5
          rw [← h4, h3]
      · rw [show getJwks (some l) f1 = (Except.ok l, some l, false) from by
          simp [getJwks, hl]] at h
        injection h with h1 h2
        injection h1 with h3
        injection h2 with h4 h5
        rw [← h4, h3]
  subst hst
  simp [getJwks, hemp]

theorem getJwks_cached_after_nonempty_witness :
    getJwks (some [⟨"kid1", 0⟩]) (Except.ok []) =
      (Except.ok [⟨"kid1", 0⟩], some [⟨"kid1", 0⟩], false) :=
  getJwks_cached_after_nonempty none (Except.ok [⟨"kid1", 0⟩]) (Except.ok [])
    [⟨"kid1", 0⟩] (some [⟨"kid1", 0⟩]) true rfl (by decide)

/-- Claim C9: the optional-identity wrapper never fails: absent or empty
credentials yield an absent identity immediately and without touching the
verifier's state; presented credentials yield the verifier's claims when
it succeeds, and an absent identity when it fails with an `AuthError` or
with a raw exception — the failure is never surfaced. -/
theorem getCurrentUserOptional_never_fails (jwtSecret : Option String)
    (tb : TokenBehavior) (cache : JwksCache) (fetch : Except String (List JwksKey))
    (c : Cred) (p : Claims) (d m : String) (cache2 : JwksCache) (fl : Bool) :
    getCurrentUserOptional none jwtSecret tb cache fetch = (none, cache, false) ∧
    (c.credentials = "" →
      getCurrentUserOptional (some c) jwtSecret tb cache fetch = (none, cache, false)) ∧
    (c.credentials ≠ "" →
      getCurrentUser (some c) jwtSecret tb cache fetch = (.ok p, cache2, fl) →
      getCurrentUserOptional (some c) jwtSecret tb cache fetch = (some p, cache2, fl)) ∧
    (c.credentials ≠ "" →
      getCurrentUser (some c) jwtSecret tb cache fetch = (.authError d, cache2, fl) →
      getCurrentUserOptional (some c) jwtSecret tb cache fetch = (none, cache2, fl)) ∧
    (c.credentials ≠ "" →
      getCurrentUser (some c) jwtSecret tb cache fetch = (.rawError m, cache2, fl) →
      getCurrentUserOptional (some c) jwtSecret tb cache fetch = (none, cache2, fl)) := by
  refine ⟨rfl, ?_, ?_, ?_, ?_⟩
  · intro he
    simp [getCurrentUserOptional, he]
  · intro hne hok
    simp [getCurrentUserOptional, hne, hok]
  · intro hne herr
    simp [getCurrentUserOptional, hne, herr]
  · intro hne herr
    simp [getCurrentUserOptional, hne, herr]

theorem getCurrentUserOptional_never_fails_witness :
    getCurrentUserOptional (some ⟨"tok"⟩) (some "secret") tbGood none (Except.ok []) =
      (some [("sub", "u1"), ("email", "a@b.c")], none, false) :=
  (getCurrentUserOptional_never_fails (some "secret") tbGood none (Except.ok [])
    ⟨"tok"⟩ [("sub", "u1"), ("email", "a@b.c")] "" "" none false).2.2.1
    (by decide) rfl

/-- Claim C10 (frame property): when the guard produced by `require_role`
succeeds, the returned claims bind every key other than `role` to its
original value (in particular `sub` and `email` are unchanged). -/
theorem requireRole_frame (role : String) (db : DbState) (user : Claims)
    (c : Claims) (h : requireRole role db user = .ok c) :
    ∀ k, k ≠ "role" → getClaim c k = getClaim user k := by
  intro k hk
  unfold requireRole at h
  by_cases hA : db.adminAvailable = true
  · rw [if_pos hA] at h
    cases hq : db.query (getClaim user "sub") with
    | error e =>
      rw [hq] at h
      cases e
      exact absurd h (by simp)
    | ok rows =>
      rw [hq] at h
      cases rows with
      | nil => exact absurd h (by simp)
      | cons row rest =>
        by_cases hr : pyRoleEq row.role role = true
        · simp only [hr, if_true] at h
          have hc : c = setClaim user "role" (pyStr row.role) := by
            have := h
            injection this with h2
            exact h2.symm
          subst hc
          exact getClaim_setClaim_other user "role" (pyStr row.role) k hk
        · simp only [hr, if_false] at h
          exact absurd h (by simp)
  · rw [if_neg hA] at h
    exact absurd h (by simp)

theorem requireRole_frame_witness :
    getClaim (setClaim userStudentToken "role" "teacher") "sub" =
      getClaim userStudentToken "sub" :=
  requireRole_frame "teacher" dbTeacher userStudentToken
    (setClaim userStudentToken "role" "teacher") rfl "sub" (by decide)
